import Mathlib

/-!
Shallow embedding of `src/main.py` (ysyesa/init-machine), a declarative
host-reconciliation tool, together with theorems checking the natural-language
specification against the code.

Python strings are modelled as `String` (opaque values) or `List Char` (where
character-level scanning matters).  External collaborators — the subprocess
runner, the HTTP client, the filesystem, the environment and filesystem
permissions — are modelled as explicit oracle parameters.  A fatal
`print_message(..., error=True)` call (which does `exit(1)`) and uncaught
Python exceptions are modelled as the error side of `Except`.
-/

namespace InitMachine

/-- Ways the Python process terminates abnormally: uncaught `KeyError`,
uncaught `FileNotFoundError`, uncaught `NameError`, or the explicit
`print_message(msg, error=True)` path of `main.py` lines 8-14 which prints a
final `[ERROR]` line and calls `exit(1)`.  All of them end the process with a
non-zero exit status. -/
inductive PyErr where
  | keyError (name : String)
  | fileNotFound (path : String)
  | nameError (name : String)
  | fatalExit (msg : String)
deriving DecidableEq

instance {ε α : Type} [DecidableEq ε] [DecidableEq α] :
    DecidableEq (Except ε α)
  | Except.ok a, Except.ok b => decidable_of_iff (a = b) (by simp)
  | Except.ok _, Except.error _ => isFalse (by simp)
  | Except.error _, Except.ok _ => isFalse (by simp)
  | Except.error a, Except.error b => decidable_of_iff (a = b) (by simp)

/-- Result of one finished subprocess (`subprocess.run`): exit code, captured
standard output and standard error, both already decoded as UTF-8. -/
structure CmdResult where
  returncode : Int
  stdout : String
  stderr : String
deriving DecidableEq

/-- Result of `requests.get`: HTTP status code, decoded text and raw body. -/
structure HttpResponse where
  status_code : Nat
  text : String
  content : String
deriving DecidableEq

/-- Observable mutating actions of the program: a direct file write, a
directory creation via `os.makedirs`, or an external command executed for its
side effect (repo registration, package install, elevated fallback). -/
inductive Effect where
  | wrote (path content : String)
  | madeDirs (path : String)
  | ran (command : String)
deriving DecidableEq

/-! ## `run_command` (main.py lines 17-28)

`subprocess.run(command.split(" "), ...)`: Python `str.split(" ")` splits at
every single space character, keeping empty pieces; tabs and newlines do not
split.  We embed it at character level. -/

/-- Helper for `pySplit`: returns the first piece (up to the first separator
character) paired with the remaining pieces. -/
def splitCharAux (sep : Char) : List Char → List Char × List (List Char)
  | [] => ([], [])
  | c :: cs =>
    let r := splitCharAux sep cs
    if c = sep then ([], r.1 :: r.2) else (c :: r.1, r.2)

/-- Python `s.split(sep)` for a one-character separator: split at every
occurrence of `sep`, keeping empty pieces (so `"a  b".split(" ")` gives
`["a", "", "b"]` and `"".split(" ")` gives `[""]`). -/
def pySplit (sep : Char) (l : List Char) : List (List Char) :=
  (splitCharAux sep l).1 :: (splitCharAux sep l).2

/-- Python `s.split(" ")`, the split used by `run_command`. -/
def pySplitSpace (l : List Char) : List (List Char) :=
  pySplit ' ' l

/-- Join pieces with a single separator character (inverse direction used to
characterise `pySplit`). -/
def joinChar (sep : Char) : List (List Char) → List Char
  | [] => []
  | [t] => t
  | t :: ts => t ++ sep :: joinChar sep ts

/-- `joinChar` with a space, the inverse of `pySplitSpace`. -/
def joinSpace (ts : List (List Char)) : List Char :=
  joinChar ' ' ts

/-- Modelled from the spec: "`command` is split on whitespace" — splitting on
runs of arbitrary whitespace, dropping empty pieces (Python `s.split()` with
no argument).  Used only to compare the spec's wording against the code's
actual split-on-single-space. -/
def splitWsAux : List Char → List Char × List (List Char)
  | [] => ([], [])
  | c :: cs =>
    let r := splitWsAux cs
    if c.isWhitespace then ([], r.1 :: r.2) else (c :: r.1, r.2)

/-- Modelled from the spec: whitespace-splitting with empty pieces dropped. -/
def specWhitespaceSplit (l : List Char) : List (List Char) :=
  ((splitWsAux l).1 :: (splitWsAux l).2).filter (fun t => !t.isEmpty)

/-- `run_command` (main.py lines 17-28).  The oracle `exec` maps the argument
list handed to `subprocess.run` to the finished process.  Returns
`(status, output)` where `status` is `returncode == 0` and `output` is stdout
on success, stderr otherwise. -/
def run_command (exec : List String → CmdResult) (command : String) :
    Bool × String :=
  let result := exec ((pySplitSpace command.toList).map List.asString)
  let status := result.returncode == 0
  (status, if status then result.stdout else result.stderr)

/-! ## `substitute_environment_variable` (main.py lines 31-44)

The regex is `\$\{([^{]*)\}`.  `re.finditer` produces the non-overlapping,
leftmost matches of the ORIGINAL string; the group is greedy, so it extends to
the last `}` in the brace-free run following `${`.  The loop body then does
`string = string.replace(match.group(0), env_value)` — `str.replace` replaces
EVERY occurrence in the CURRENT (already partially substituted) string.
`os.environ[name]` raises `KeyError` when `name` is unbound. -/

/-- Greedy group scan after a `${`: consumes the longest `{`-free prefix that
is terminated by `}` and returns (group, rest-after-that-`}`); `none` when no
such `}` exists before the next `{` or the end of the string. -/
def scanGroup : List Char → Option (List Char × List Char)
  | [] => none
  | c :: cs =>
    if c = '{' then none
    else
      match scanGroup cs with
      | some (g, r) => some (c :: g, r)
      | none => if c = '}' then some ([], cs) else none

/-- Fuelled scanner for the matches of `\$\{([^{]*)\}`; fuel bounds the number
of scanning steps (the input length always suffices). -/
def findMatchesGo : Nat → List Char → List (List Char × List Char)
  | 0, _ => []
  | _ + 1, [] => []
  | fuel + 1, '$' :: '{' :: rest =>
    match scanGroup rest with
    | some (g, r) => ('$' :: '{' :: (g ++ ['}']), g) :: findMatchesGo fuel r
    | none => findMatchesGo fuel ('{' :: rest)
  | fuel + 1, _ :: cs => findMatchesGo fuel cs

/-- The list of `(whole-match, group)` pairs produced by
`re.finditer(r"\$\{([^{]*)\}", string)` on the original string. -/
def findMatches (l : List Char) : List (List Char × List Char) :=
  findMatchesGo l.length l

/-- Fuelled core of `replaceAll`; fuel bounds the number of scanning steps
(the input length always suffices for a non-empty pattern). -/
def replaceAllGo (pat v : List Char) : Nat → List Char → List Char
  | _, [] => []
  | 0, s => s
  | fuel + 1, c :: cs =>
    if pat.isPrefixOf (c :: cs) then
      v ++ replaceAllGo pat v fuel (List.drop (pat.length - 1) cs)
    else
      c :: replaceAllGo pat v fuel cs

/-- Python `s.replace(pat, v)`: replace every non-overlapping occurrence of
`pat` in `s`, scanning left to right, never rescanning inserted text.  (Python
treats an empty `pat` specially; the call sites here always pass the non-empty
`match.group(0)`, so the empty case just returns `s`.) -/
def replaceAll (s pat v : List Char) : List Char :=
  if pat.isEmpty then s else replaceAllGo pat v s.length s

/-- `substitute_environment_variable` (main.py lines 31-44) at character
level: iterate over the matches of the ORIGINAL string; for each, look up the
group in the environment (raising `KeyError` when unbound) and replace every
occurrence of the whole match text in the CURRENT string. -/
def substEnv (env : List Char → Option (List Char)) (s : List Char) :
    Except PyErr (List Char) :=
  (findMatches s).foldlM
    (fun cur mg =>
      match env mg.2 with
      | none => Except.error (PyErr.keyError mg.2.asString)
      | some v => Except.ok (replaceAll cur mg.1 v))
    s

/-- `substitute_environment_variable` at `String` level, as used by
`FilesConfig.__init__`. -/
def substituteEnvironmentVariable (env : List Char → Option (List Char))
    (s : String) : Except PyErr String :=
  (substEnv env s.toList).map List.asString

/-- Modelled from the spec: "Expansion is single-pass left-to-right,
non-recursive (an expanded value containing `${...}` is not re-expanded)."
Scans the string once, emitting each environment value verbatim and never
rescanning it.  Fuelled core. -/
def specExpandGo (env : List Char → Option (List Char)) :
    Nat → List Char → Except PyErr (List Char)
  | 0, s => Except.ok s
  | _ + 1, [] => Except.ok []
  | fuel + 1, '$' :: '{' :: rest =>
    match scanGroup rest with
    | some (g, r) =>
      match env g with
      | none => Except.error (PyErr.keyError g.asString)
      | some v => (specExpandGo env fuel r).map (fun t => v ++ t)
    | none => (specExpandGo env fuel ('{' :: rest)).map (fun t => '$' :: t)
  | fuel + 1, c :: cs => (specExpandGo env fuel cs).map (fun t => c :: t)

/-- Modelled from the spec: non-recursive single-pass expansion, to be
compared with the code's `substEnv`. -/
def specExpandNonRecursive (env : List Char → Option (List Char))
    (s : List Char) : Except PyErr (List Char) :=
  specExpandGo env s.length s

/-! ## `InstallConfig` (main.py lines 47-122) -/

/-- The configuration mapping handed to `InstallConfig.__init__`.  `none`
models an absent key; `data["if_fail"]` raises `KeyError` when absent while
the other three fields are read with `data.get(...)` and default to `None`. -/
structure InstallData where
  if_fail : Option String
  repo : Option String
  install_from_repo : Option String
  install_from_remote_file : Option String
deriving DecidableEq

/-- A successfully constructed `InstallConfig`. -/
structure InstallConfig where
  if_fail : String
  repo : Option String
  install_from_repo : Option String
  install_from_remote_file : Option String
deriving DecidableEq

/-- Python truthiness of an optional string: `None` and `""` are falsy, every
other string is truthy. -/
def pyTruthy : Option String → Bool
  | none => false
  | some s => !s.toList.isEmpty

/-- Error text of main.py line 60 (source text quotes the key names with
apostrophes, which are dropped here). -/
def msgMultiline : String :=
  "if_fail does not support multiline command."

/-- Error text of main.py line 63 (apostrophes around the key names
dropped). -/
def msgExactlyOne : String :=
  "Either install_from_repo or install_from_remote_file must be defined."

/-- Error text of main.py line 66. -/
def msgRpm : String :=
  "Remote file must be an RPM file."

/-- `InstallConfig.__init__` (main.py lines 51-66): read `data["if_fail"]`
(`KeyError` when missing), then run the three fatal verification checks in
source order: multiline probe, exactly-one of
`install_from_repo`/`install_from_remote_file` (line 62 compares the negated
truthiness of both fields), and the `.rpm` suffix of a remote file. -/
def installConfigInit (d : InstallData) : Except PyErr InstallConfig :=
  match d.if_fail with
  | none => Except.error (PyErr.keyError "if_fail")
  | some if_fail =>
    if '\n' ∈ if_fail.toList then
      Except.error (PyErr.fatalExit msgMultiline)
    else if (!pyTruthy d.install_from_repo) == (!pyTruthy d.install_from_remote_file) then
      Except.error (PyErr.fatalExit msgExactlyOne)
    else if pyTruthy d.install_from_remote_file
        && !(List.isSuffixOf ".rpm".toList (d.install_from_remote_file.getD "").toList) then
      Except.error (PyErr.fatalExit msgRpm)
    else
      Except.ok
        { if_fail := if_fail
          repo := d.repo
          install_from_repo := d.install_from_repo
          install_from_remote_file := d.install_from_remote_file }

/-- `InstallConfig.should_be_installed` (main.py lines 69-76): run the probe
command and return `not status`.  The method reads but never writes the
directive, which the returned unchanged config makes explicit. -/
def should_be_installed (exec : List String → CmdResult) (c : InstallConfig) :
    Bool × InstallConfig :=
  let st := (run_command exec c.if_fail).1
  (!st, c)

/-- `InstallConfig.__install_from_repo` (main.py lines 89-103).  When `repo`
is truthy the add-repo command is run first; on its failure line 97 evaluates
the f-string `f"Failed to add repo {self.repo}: {output}"`, but `output` is
never assigned in that scope (line 95 binds the command output to `_`), so
Python raises `NameError` before `print_message` is reached. -/
def installFromRepo (exec : List String → CmdResult) (c : InstallConfig) :
    Except PyErr (List Effect) := do
  let eff1 ←
    if pyTruthy c.repo then
      let command := "sudo dnf config-manager -y --add-repo " ++ c.repo.getD ""
      let st := (run_command exec command).1
      if !st then Except.error (PyErr.nameError "output")
      else Except.ok [Effect.ran command]
    else Except.ok ([] : List Effect)
  let command := "sudo dnf install -y " ++ c.install_from_repo.getD "None"
  let r := run_command exec command
  if !r.1 then Except.error (PyErr.fatalExit ("Failed to install package: " ++ r.2))
  else Except.ok (eff1 ++ [Effect.ran command])

/-- `InstallConfig.__install_from_remote_file` (main.py lines 106-122):
HTTP GET the URL (fatal on a non-200 status), write the body to
`/tmp/<final path segment of the URL>`, then install from that path (fatal on
command failure).  `self.install_from_remote_file` is `Option String`; Python
would crash on `requests.get(None)`, which is unreachable after construction
(`getD "None"` mirrors how `None` would be rendered). -/
def installFromRemoteFile (exec : List String → CmdResult)
    (http : String → HttpResponse) (c : InstallConfig) :
    Except PyErr (List Effect) :=
  let url := c.install_from_remote_file.getD "None"
  let res := http url
  if res.status_code != 200 then
    Except.error (PyErr.fatalExit
      ("Failed to download remote file from " ++ url ++ ": " ++ res.text))
  else
    let filename := "/tmp/" ++ ((pySplit '/' url.toList).getLastD []).asString
    let command := "sudo dnf install -y " ++ filename
    let r := run_command exec command
    if !r.1 then Except.error (PyErr.fatalExit ("Failed to install package: " ++ r.2))
    else Except.ok [Effect.wrote filename res.content, Effect.ran command]

/-- `InstallConfig.install` (main.py lines 79-86): probe first; when
installation is needed, dispatch on the truthiness of `install_from_repo`.
Source line 85 reads `elif self.__install_from_remote_file:`, which tests the
bound METHOD object — always truthy — so the `elif` branch is unconditional
and is modelled as a plain `else`. -/
def install (exec : List String → CmdResult) (http : String → HttpResponse)
    (c : InstallConfig) : Except PyErr (List Effect) :=
  if (should_be_installed exec c).1 then
    if pyTruthy c.install_from_repo then installFromRepo exec c
    else installFromRemoteFile exec http c
  else Except.ok []

/-! ## `FilesConfig` (main.py lines 125-175)

The filesystem is an oracle `fs : String → Option String`: `none` means the
path does not exist, `some c` means a readable file with content `c` (the
program reads files in text mode and compares whole contents). -/

/-- The three values of `FilesConfig.ACTION_*` (integers 1, 2, 3 in the
source). -/
inductive FAction where
  | CREATED
  | UPDATED
  | NONE
deriving DecidableEq

/-- One element of `FilesConfig.files`: the dict built at main.py lines
144-149. -/
structure FileRec where
  origin_file : String
  origin_file_content : String
  target_file : String
  action : FAction
deriving DecidableEq

/-- Python `open(path, "r").read()`: the content when the file exists,
an uncaught `FileNotFoundError` otherwise. -/
def pyRead (fs : String → Option String) (path : String) :
    Except PyErr String :=
  match fs path with
  | some c => Except.ok c
  | none => Except.error (PyErr.fileNotFound path)

/-- One iteration of the `FilesConfig.__init__` loop (main.py lines 135-149):
expand the target path, classify the action (`CREATED` when the target does
not exist, otherwise `UPDATED`/`NONE` by comparing origin and target
contents), then read the origin content for the stored record. -/
def mkFileRec (env : List Char → Option (List Char))
    (fs : String → Option String) (origin_file target_file : String) :
    Except PyErr FileRec := do
  let target_file ← substituteEnvironmentVariable env target_file
  let action ←
    match fs target_file with
    | none => Except.ok FAction.CREATED
    | some tcontent => do
      let oc ← pyRead fs origin_file
      Except.ok (if oc ≠ tcontent then FAction.UPDATED else FAction.NONE)
  let content ← pyRead fs origin_file
  Except.ok
    { origin_file := origin_file
      origin_file_content := content
      target_file := target_file
      action := action }

/-- `FilesConfig.__init__` (main.py lines 133-149) over the insertion-ordered
`(origin, target)` pairs of the configuration mapping.  The first uncaught
exception (unbound variable, missing origin file) aborts the whole
construction, as in Python. -/
def filesConfigInit (env : List Char → Option (List Char))
    (fs : String → Option String) (data : List (String × String)) :
    Except PyErr (List FileRec) :=
  data.mapM (fun p => mkFileRec env fs p.1 p.2)

/-- `os.path.dirname` for POSIX paths: the prefix up to the last `/`, with
trailing slashes stripped unless the result consists only of slashes; `""`
when the path contains no `/`. -/
def pyDirname (p : String) : String :=
  let cs := p.toList
  match cs.reverse.findIdx? (fun c => c = '/') with
  | none => ""
  | some k =>
    let head := cs.take (cs.length - k)
    if head.all (fun c => c = '/') then head.asString
    else ((head.reverse.dropWhile (fun c => c = '/')).reverse).asString

/-- One iteration of the `FilesConfig.write_files` loop (main.py lines
155-175).  `perm target` says whether direct filesystem access to the target
succeeds; `false` makes the try-block raise `PermissionError`, which is caught
and answered with elevated `sudo` fallback commands whose `run_command`
results are bound to `_` and never examined. -/
def writeOne (exec : List String → CmdResult) (perm : String → Bool)
    (f : FileRec) : List Effect :=
  match f.action with
  | FAction.CREATED =>
    if perm f.target_file then
      [Effect.madeDirs (pyDirname f.target_file),
       Effect.wrote f.target_file f.origin_file_content]
    else
      let c1 := "sudo mkdir -p " ++ pyDirname f.target_file
      let c2 := "sudo cp " ++ f.origin_file ++ " " ++ f.target_file
      let _ := run_command exec c1
      let _ := run_command exec c2
      [Effect.ran c1, Effect.ran c2]
  | FAction.UPDATED =>
    if perm f.target_file then
      [Effect.wrote f.target_file f.origin_file_content]
    else
      let c := "sudo cp " ++ f.origin_file ++ " " ++ f.target_file
      let _ := run_command exec c
      [Effect.ran c]
  | FAction.NONE => []

/-- `FilesConfig.write_files` (main.py lines 152-175): process every record in
order; the function always runs to completion (no outcome of the fallback
commands is ever checked), so it returns a plain effect list. -/
def write_files (exec : List String → CmdResult) (perm : String → Bool)
    (files : List FileRec) : List Effect :=
  files.foldr (fun f acc => writeOne exec perm f ++ acc) []

/-! ## `Entry` and the top-level run (main.py lines 178-228) -/

/-- An `Entry` (main.py lines 178-187), after its directives were
constructed. -/
structure Entry where
  name : String
  install_config : Option InstallConfig
  files_config : Option (List FileRec)

/-- The `actions` list built by `Entry.get_actions` (main.py lines 190-202):
one install line when an install directive exists and its probe says the
package is missing, then one line per `CREATED`/`UPDATED` file record. -/
def entryActions (exec : List String → CmdResult) (e : Entry) : List String :=
  let installLines :=
    match e.install_config with
    | some ic =>
      if (should_be_installed exec ic).1 then
        ["Package will be installed: "
          ++ (if pyTruthy ic.install_from_repo then ic.install_from_repo.getD "None"
              else ic.install_from_remote_file.getD "None")]
      else []
    | none => []
  let fileLines :=
    match e.files_config with
    | some fc =>
      fc.foldr
        (fun r acc =>
          (match r.action with
           | FAction.CREATED => ["File will be created: " ++ r.target_file]
           | FAction.UPDATED => ["File will be updated: " ++ r.target_file]
           | FAction.NONE => []) ++ acc)
        []
    | none => []
  installLines ++ fileLines

/-- `Entry.get_actions` returns `actions != []` (main.py line 211). -/
def get_actions (exec : List String → CmdResult) (e : Entry) : Bool :=
  !(entryActions exec e).isEmpty

/-- The apply phase of the main block (main.py lines 224-228): for every entry
in declaration order, run the install directive then the file directives; a
fatal error inside a directive aborts the remaining entries. -/
def applyAll (exec : List String → CmdResult) (http : String → HttpResponse)
    (perm : String → Bool) (entries : List Entry) :
    Except PyErr (List Effect) :=
  entries.foldlM
    (fun acc e => do
      let eff1 ←
        match e.install_config with
        | some ic => install exec http ic
        | none => Except.ok ([] : List Effect)
      let eff2 :=
        match e.files_config with
        | some fc => write_files exec perm fc
        | none => []
      Except.ok (acc ++ eff1 ++ eff2))
    []

/-- The main block after entry construction (main.py lines 220-228): fold
`get_actions` over all entries (every entry is reported even after pending
work was found), then `if any_actions and input(...) == "Y"` — the prompt is
issued exactly once and only when some entry has pending work, and the apply
phase runs only on the literal input `Y`.  Returns how many times the user was
prompted, paired with the outcome of the run. -/
def mainRun (exec : List String → CmdResult) (http : String → HttpResponse)
    (perm : String → Bool) (entries : List Entry) (userInput : String) :
    Nat × Except PyErr (List Effect) :=
  let any_actions := entries.foldl (fun acc e => get_actions exec e || acc) false
  if any_actions then
    if userInput == "Y" then (1, applyAll exec http perm entries)
    else (1, Except.ok [])
  else (0, Except.ok [])

/-! ## Helper lemmas -/

lemma splitCharAux_cons_sep (sep : Char) (cs : List Char) :
    splitCharAux sep (sep :: cs) =
      ([], (splitCharAux sep cs).1 :: (splitCharAux sep cs).2) := by
  simp [splitCharAux]

lemma splitCharAux_cons_ne (sep c : Char) (cs : List Char) (hc : c ≠ sep) :
    splitCharAux sep (c :: cs) =
      (c :: (splitCharAux sep cs).1, (splitCharAux sep cs).2) := by
  simp [splitCharAux, hc]

lemma splitCharAux_no_sep (sep : Char) (l : List Char) :
    sep ∉ (splitCharAux sep l).1 ∧ ∀ t ∈ (splitCharAux sep l).2, sep ∉ t := by
  induction l with
  | nil => simp [splitCharAux]
  | cons c cs ih =>
    by_cases hc : c = sep
    · subst hc
      rw [splitCharAux_cons_sep]
      exact ⟨by simp, by
        intro t ht
        rcases List.mem_cons.mp ht with h | h
        · exact h ▸ ih.1
        · exact ih.2 t h⟩
    · rw [splitCharAux_cons_ne sep c cs hc]
      refine ⟨?_, ih.2⟩
      intro h
      rcases List.mem_cons.mp h with h | h
      · exact hc h.symm
      · exact ih.1 h

lemma pySplitSpace_no_space (l : List Char) :
    ∀ t ∈ pySplitSpace l, ' ' ∉ t := by
  intro t ht
  rcases List.mem_cons.mp ht with h | h
  · exact h ▸ (splitCharAux_no_sep ' ' l).1
  · exact (splitCharAux_no_sep ' ' l).2 t h

lemma joinChar_cons_cons (sep : Char) (t t₂ : List Char)
    (ts : List (List Char)) :
    joinChar sep (t :: t₂ :: ts) = t ++ sep :: joinChar sep (t₂ :: ts) := rfl

lemma joinChar_splitCharAux (sep : Char) (l : List Char) :
    joinChar sep ((splitCharAux sep l).1 :: (splitCharAux sep l).2) = l := by
  induction l with
  | nil => rfl
  | cons c cs ih =>
    by_cases hc : c = sep
    · subst hc
      rw [splitCharAux_cons_sep, joinChar_cons_cons, List.nil_append, ih]
    · rw [splitCharAux_cons_ne sep c cs hc]
      show joinChar sep ((c :: (splitCharAux sep cs).1) :: (splitCharAux sep cs).2) = c :: cs
      cases h2 : (splitCharAux sep cs).2 with
      | nil =>
        rw [h2] at ih
        have ih2 : (splitCharAux sep cs).1 = cs := ih
        show c :: (splitCharAux sep cs).1 = c :: cs
        rw [ih2]
      | cons u us =>
        rw [h2] at ih
        rw [joinChar_cons_cons] at ih ⊢
        rw [List.cons_append, ih]

lemma joinSpace_pySplitSpace (l : List Char) :
    joinSpace (pySplitSpace l) = l :=
  joinChar_splitCharAux ' ' l

lemma foldl_or_eq_any {α : Type} (p : α → Bool) (l : List α) (b : Bool) :
    l.foldl (fun acc e => p e || acc) b = (l.any p || b) := by
  induction l generalizing b with
  | nil => simp
  | cons x xs ih =>
    simp only [List.foldl_cons, List.any_cons, ih]
    cases p x <;> cases b <;> simp

/-! ## Concrete data used by witnesses and counterexamples -/

/-- Subprocess oracle that always succeeds and reports the number of
arguments it received on stdout. -/
def argCountExec : List String → CmdResult :=
  fun args => { returncode := 0, stdout := toString args.length, stderr := "" }

/-- Subprocess oracle on which every command fails. -/
def failExec : List String → CmdResult :=
  fun _ => { returncode := 1, stdout := "", stderr := "boom" }

/-- Environment for the substitution counterexample: `A` expands to the text
of a `B` placeholder, `B` expands to `v`. -/
def envC : List Char → Option (List Char) :=
  fun n =>
    if n = ['A'] then some ['$', '{', 'B', '}']
    else if n = ['B'] then some ['v'] else none

/-! ## Claim theorems -/

/-- C1: with the probe single-line check and the remote-archive-extension
check out of the way, `InstallConfig` construction fails fatally with the
exactly-one error precisely when the two package specs are both set or both
unset (Python truthiness: an absent key and an empty string both count as
unset), and passes this check — succeeding — when exactly one is set. -/
theorem installConfigInit_exactly_one
    (d : InstallData) (f : String)
    (hif : d.if_fail = some f)
    (hnl : '\n' ∉ f.toList)
    (hrpm : pyTruthy d.install_from_remote_file = true →
      List.isSuffixOf ".rpm".toList (d.install_from_remote_file.getD "").toList = true) :
    (installConfigInit d = Except.error (PyErr.fatalExit msgExactlyOne)
      ↔ pyTruthy d.install_from_repo = pyTruthy d.install_from_remote_file)
    ∧ (pyTruthy d.install_from_repo ≠ pyTruthy d.install_from_remote_file →
        installConfigInit d =
          Except.ok ⟨f, d.repo, d.install_from_repo, d.install_from_remote_file⟩) := by
  have hnl2 : '\n' ∉ f.data := hnl
  cases hR : pyTruthy d.install_from_repo with
  | false =>
    cases hF : pyTruthy d.install_from_remote_file with
    | false => simp [installConfigInit, hif, hnl, hnl2, hR, hF]
    | true =>
      have hsuf : List.isSuffixOf ['.', 'r', 'p', 'm']
          (d.install_from_remote_file.getD "").data = true := hrpm hF
      have hsuf2 := hrpm hF
      simp at hsuf2
      simp [installConfigInit, hif, hnl, hnl2, hR, hF, hsuf, hsuf2]
  | true =>
    cases hF : pyTruthy d.install_from_remote_file with
    | false => simp [installConfigInit, hif, hnl, hnl2, hR, hF]
    | true =>
      have hsuf : List.isSuffixOf ['.', 'r', 'p', 'm']
          (d.install_from_remote_file.getD "").data = true := hrpm hF
      have hsuf2 := hrpm hF
      simp at hsuf2
      simp [installConfigInit, hif, hnl, hnl2, hR, hF, hsuf, hsuf2]

/-- C1 witness: a configuration with only `install_from_repo` set passes the
exactly-one check and constructs successfully. -/
theorem installConfigInit_exactly_one_witness :
    installConfigInit ⟨some "true", none, some "vim", none⟩ =
      Except.ok ⟨"true", none, some "vim", none⟩ :=
  (installConfigInit_exactly_one ⟨some "true", none, some "vim", none⟩ "true"
      rfl (by decide) (by decide)).2 (by decide)

/-- C3: `should_be_installed` returns `true` exactly when the probe command's
exit code is nonzero, and returns the directive unchanged (no state
mutation). -/
theorem should_be_installed_iff (exec : List String → CmdResult)
    (c : InstallConfig) :
    ((should_be_installed exec c).1 = true ↔
      (exec ((pySplitSpace c.if_fail.toList).map List.asString)).returncode ≠ 0)
    ∧ (should_be_installed exec c).2 = c := by
  constructor
  · simp [should_be_installed, run_command]
  · rfl

/-- C8 counterexample: the command is NOT split on whitespace.  On the
command `"echo\ta"` the code passes the single argument `"echo\ta"` (one
token, as the stdout of the argument-counting oracle shows), while
whitespace-splitting as the claim states it would produce the two tokens
`["echo", "a"]`. -/
theorem run_command_whitespace_counterexample :
    run_command argCountExec "echo\ta" = (true, "1")
    ∧ pySplitSpace "echo\ta".toList = [['e', 'c', 'h', 'o', '\t', 'a']]
    ∧ specWhitespaceSplit "echo\ta".toList = [['e', 'c', 'h', 'o'], ['a']]
    ∧ pySplitSpace "echo\ta".toList ≠ specWhitespaceSplit "echo\ta".toList := by
  refine ⟨by decide, by decide, by decide, by decide⟩

/-- C8 (amended): `run_command` splits the command at every single space
character only (the pieces contain no space, and joining them back with
single spaces restores the command; tabs and newlines do not split), never
throws for a nonzero exit, and returns `(true, stdout)` when the process
exits with code 0 and `(false, stderr)` otherwise. -/
theorem run_command_space_split (exec : List String → CmdResult)
    (cmd : String) :
    run_command exec cmd =
      ((exec ((pySplitSpace cmd.toList).map List.asString)).returncode == 0,
        if (exec ((pySplitSpace cmd.toList).map List.asString)).returncode == 0
        then (exec ((pySplitSpace cmd.toList).map List.asString)).stdout
        else (exec ((pySplitSpace cmd.toList).map List.asString)).stderr)
    ∧ (∀ t ∈ pySplitSpace cmd.toList, ' ' ∉ t)
    ∧ joinSpace (pySplitSpace cmd.toList) = cmd.toList :=
  ⟨rfl, pySplitSpace_no_space _, joinSpace_pySplitSpace _⟩

/-- C8 witness: instantiating the amended claim on the command `"a b"`. -/
theorem run_command_space_split_witness :
    joinSpace (pySplitSpace "a b".toList) = "a b".toList
    ∧ ' ' ∉ (['a'] : List Char) :=
  ⟨(run_command_space_split argCountExec "a b").2.2,
   (run_command_space_split argCountExec "a b").2.1 ['a'] (by decide)⟩

/-- C10: constructing an `InstallConfig` from a mapping without the `if_fail`
key raises an uncaught `KeyError` (not the fatal `print_message` path), and
every successfully constructed directive carries the probe command taken from
the mapping. -/
theorem installConfigInit_missing_if_fail (d : InstallData) :
    (d.if_fail = none →
      installConfigInit d = Except.error (PyErr.keyError "if_fail"))
    ∧ (∀ c, installConfigInit d = Except.ok c → d.if_fail = some c.if_fail) := by
  constructor
  · intro h
    simp [installConfigInit, h]
  · intro c hc
    cases hd : d.if_fail with
    | none => simp [installConfigInit, hd] at hc
    | some f =>
      simp only [installConfigInit, hd] at hc
      split_ifs at hc <;> simp_all
      rw [← hc]

/-- C10 witness: a mapping lacking `if_fail` yields the `KeyError`. -/
theorem installConfigInit_missing_if_fail_witness :
    installConfigInit ⟨none, none, some "vim", none⟩ =
      Except.error (PyErr.keyError "if_fail") :=
  (installConfigInit_missing_if_fail ⟨none, none, some "vim", none⟩).1 rfl

/-- C2: when the target path expands successfully and the source file is
readable, the record built for a `(source, target)` pair carries the expanded
target, the source content, and the action `CREATED` exactly when the target
does not exist, `UPDATED` exactly when the target exists with content
different from the source, and `NONE` exactly when the target exists with
content identical to the source. -/
lemma except_bind_ok {ε α β : Type} (a : α) (f : α → Except ε β) :
    (Except.ok (ε := ε) a >>= f) = f a := rfl

theorem mkFileRec_action_classification
    (env : List Char → Option (List Char)) (fs : String → Option String)
    (origin target t' oc : String)
    (hsub : substituteEnvironmentVariable env target = Except.ok t')
    (ho : fs origin = some oc) :
    ∃ r, mkFileRec env fs origin target = Except.ok r
      ∧ r.origin_file = origin ∧ r.origin_file_content = oc ∧ r.target_file = t'
      ∧ (r.action = FAction.CREATED ↔ fs t' = none)
      ∧ (r.action = FAction.UPDATED ↔ ∃ tc, fs t' = some tc ∧ tc ≠ oc)
      ∧ (r.action = FAction.NONE ↔ fs t' = some oc) := by
  cases hft : fs t' with
  | none =>
    refine ⟨⟨origin, oc, t', FAction.CREATED⟩, ?_, rfl, rfl, rfl,
      by simp [hft], by simp [hft], by simp [hft]⟩
    simp [mkFileRec, hsub, except_bind_ok, hft, pyRead, ho]
  | some tc =>
    by_cases heq : oc = tc
    · subst heq
      refine ⟨⟨origin, oc, t', FAction.NONE⟩, ?_, rfl, rfl, rfl,
        by simp [hft], by simp [hft], by simp [hft]⟩
      simp [mkFileRec, hsub, except_bind_ok, hft, pyRead, ho]
    · refine ⟨⟨origin, oc, t', FAction.UPDATED⟩, ?_, rfl, rfl, rfl,
        by simp [hft], ?_, ?_⟩
      · simp [mkFileRec, hsub, except_bind_ok, hft, pyRead, ho, heq]
      · simp only [hft, Option.some.injEq]
        constructor
        · intro _; exact ⟨tc, rfl, fun h => heq h.symm⟩
        · intro _; trivial
      · constructor
        · intro h; exact absurd h (by simp)
        · intro h
          have h2 : some tc = some oc := hft ▸ h
          exact absurd (Option.some_inj.mp h2).symm heq

/-- Filesystem used by witnesses: a single readable file `o` with content
`c`; every other path is absent. -/
def fsW : String → Option String :=
  fun p => if p = "o" then some "c" else none

/-- C2 witness: with an absent target `t`, the pair `(o, t)` classifies as
`CREATED`. -/
theorem mkFileRec_action_classification_witness :
    ∃ r, mkFileRec (fun _ => none) fsW "o" "t" = Except.ok r
      ∧ r.origin_file = "o" ∧ r.origin_file_content = "c" ∧ r.target_file = "t"
      ∧ (r.action = FAction.CREATED ↔ fsW "t" = none)
      ∧ (r.action = FAction.UPDATED ↔ ∃ tc, fsW "t" = some tc ∧ tc ≠ "c")
      ∧ (r.action = FAction.NONE ↔ fsW "t" = some "c") :=
  mkFileRec_action_classification (fun _ => none) fsW "o" "t" "t" "c"
    (by decide) (by decide)

lemma write_files_cons (exec : List String → CmdResult) (perm : String → Bool)
    (g : FileRec) (gs : List FileRec) :
    write_files exec perm (g :: gs) =
      writeOne exec perm g ++ write_files exec perm gs := rfl

/-- C9: `write_files` never writes a `NONE` record (dropping all `NONE`
records leaves its result unchanged), always runs to completion with a result
that is independent of the exit status of the fallback commands (their
`run_command` results are discarded), and a permission failure on a `CREATED`
or `UPDATED` record produces exactly the elevated fallback commands. -/
theorem write_files_fallback_unchecked
    (exec exec2 : List String → CmdResult) (perm : String → Bool)
    (files : List FileRec) (f : FileRec) :
    write_files exec perm files = write_files exec2 perm files
    ∧ write_files exec perm
        (files.filter (fun g => !decide (g.action = FAction.NONE)))
        = write_files exec perm files
    ∧ (f.action = FAction.NONE → writeOne exec perm f = [])
    ∧ (f.action = FAction.CREATED → perm f.target_file = false →
        writeOne exec perm f =
          [Effect.ran ("sudo mkdir -p " ++ pyDirname f.target_file),
           Effect.ran ("sudo cp " ++ f.origin_file ++ " " ++ f.target_file)])
    ∧ (f.action = FAction.UPDATED → perm f.target_file = false →
        writeOne exec perm f =
          [Effect.ran ("sudo cp " ++ f.origin_file ++ " " ++ f.target_file)]) := by
  refine ⟨rfl, ?_, ?_, ?_, ?_⟩
  · induction files with
    | nil => rfl
    | cons g gs ih =>
      cases hg : g.action <;>
        simp [write_files_cons, List.filter_cons, writeOne, hg, ih]
  · intro h; simp [writeOne, h]
  · intro h hp; simp [writeOne, h, hp]
  · intro h hp; simp [writeOne, h, hp]

/-- C9 witness: a `NONE` record produces no effect, and a permission-denied
`UPDATED` record produces exactly the unchecked `sudo cp` fallback. -/
theorem write_files_fallback_unchecked_witness :
    writeOne failExec (fun _ => true) ⟨"o", "c", "t", FAction.NONE⟩ = []
    ∧ writeOne failExec (fun _ => false) ⟨"o", "c", "t", FAction.UPDATED⟩
        = [Effect.ran ("sudo cp " ++ "o" ++ " " ++ "t")] :=
  ⟨(write_files_fallback_unchecked failExec failExec (fun _ => true) []
      ⟨"o", "c", "t", FAction.NONE⟩).2.2.1 rfl,
   (write_files_fallback_unchecked failExec failExec (fun _ => false) []
      ⟨"o", "c", "t", FAction.UPDATED⟩).2.2.2.2 rfl rfl⟩

/-- An `InstallConfig` whose repo-registration will be attempted: `repo` is
set and a repository package spec is used. -/
def repoCfg : InstallConfig :=
  ⟨"false", some "https://repo.example/r.repo", some "pkg", none⟩

/-- C7: two fatal conditions bypass the `print_message` error-line path.
A failed repo-registration command hits main.py line 97, whose f-string
references the never-assigned name `output` (line 95 binds the command output
to `_`), so the process dies with an uncaught `NameError` instead of printing
the `[ERROR] Failed to add repo ...` line; an unbound environment variable
during target-path expansion dies with an uncaught `KeyError`.  Both still
exit non-zero, but neither runs the fatal-exit error-line path the spec
describes. -/
theorem fatal_paths_bypass_error_line :
    installFromRepo failExec repoCfg = Except.error (PyErr.nameError "output")
    ∧ filesConfigInit (fun _ => none) (fun _ => none)
        [("src.conf", "${HOME}/dst.conf")]
        = Except.error (PyErr.keyError "HOME") := by
  constructor
  · decide
  · decide

/-- C4: if no entry has pending work the run ends successfully without a
prompt and without effects; otherwise the user is prompted exactly once, the
apply phase runs exactly on the literal input `Y`, and any other input ends
the run successfully with no effects (filesystem and package state
unchanged). -/
theorem mainRun_confirmation_gate (exec : List String → CmdResult)
    (http : String → HttpResponse) (perm : String → Bool)
    (entries : List Entry) (userInput : String) :
    (entries.any (fun e => get_actions exec e) = false →
      mainRun exec http perm entries userInput = (0, Except.ok []))
    ∧ (entries.any (fun e => get_actions exec e) = true →
        (mainRun exec http perm entries userInput).1 = 1
        ∧ (userInput = "Y" →
            (mainRun exec http perm entries userInput).2 =
              applyAll exec http perm entries)
        ∧ (userInput ≠ "Y" →
            (mainRun exec http perm entries userInput).2 = Except.ok [])) := by
  have hfold : entries.foldl (fun acc e => get_actions exec e || acc) false
      = entries.any (fun e => get_actions exec e) := by
    rw [foldl_or_eq_any]
    simp
  constructor
  · intro h
    simp [mainRun, hfold, h]
  · intro h
    refine ⟨?_, ?_, ?_⟩
    · simp only [mainRun, hfold, h, if_true]
      split <;> rfl
    · intro hy
      simp [mainRun, hfold, h, hy]
    · intro hy
      simp [mainRun, hfold, h, hy]

/-- An entry whose single file directive is pending (`CREATED`). -/
def entryPending : Entry :=
  ⟨"e", none, some [⟨"o", "c", "t", FAction.CREATED⟩]⟩

/-- HTTP oracle that always answers 200 with empty body. -/
def anyHttp : String → HttpResponse :=
  fun _ => ⟨200, "", ""⟩

/-- Permission oracle on which every direct write succeeds. -/
def allowPerm : String → Bool :=
  fun _ => true

/-- C4 witness: an empty entry list ends without a prompt; a pending entry
prompts once and the input `n` declines, leaving no effects. -/
theorem mainRun_confirmation_gate_witness :
    mainRun failExec anyHttp allowPerm [] "x" = (0, Except.ok [])
    ∧ (mainRun failExec anyHttp allowPerm [entryPending] "n").1 = 1
    ∧ (mainRun failExec anyHttp allowPerm [entryPending] "n").2 = Except.ok [] := by
  have hp : ([entryPending] : List Entry).any (fun e => get_actions failExec e)
      = true := by decide
  exact ⟨(mainRun_confirmation_gate failExec anyHttp allowPerm [] "x").1 (by decide),
    ((mainRun_confirmation_gate failExec anyHttp allowPerm [entryPending] "n").2 hp).1,
    ((mainRun_confirmation_gate failExec anyHttp allowPerm [entryPending] "n").2 hp).2.2
      (by decide)⟩

/-- C6: a constructed directive with the remote file set and the repo spec
unset, whose probe reports the package missing, takes the remote-file path:
non-200 download aborts fatally with the download error; on 200 the body is
persisted to `/tmp/<final URL path segment>` and the package is installed
from that path, aborting fatally when that command fails. -/
theorem install_remote_path (exec : List String → CmdResult)
    (http : String → HttpResponse) (c : InstallConfig) (url : String)
    (hrem : c.install_from_remote_file = some url)
    (hrepo : pyTruthy c.install_from_repo = false)
    (hprobe :
      (exec ((pySplitSpace c.if_fail.toList).map List.asString)).returncode ≠ 0) :
    install exec http c =
      (if (http url).status_code != 200 then
        Except.error (PyErr.fatalExit
          ("Failed to download remote file from " ++ url ++ ": " ++ (http url).text))
      else
        let filename := "/tmp/" ++ ((pySplit '/' url.toList).getLastD []).asString
        let command := "sudo dnf install -y " ++ filename
        if (exec ((pySplitSpace command.toList).map List.asString)).returncode != 0 then
          Except.error (PyErr.fatalExit ("Failed to install package: "
            ++ (exec ((pySplitSpace command.toList).map List.asString)).stderr))
        else
          Except.ok [Effect.wrote filename (http url).content, Effect.ran command]) := by
  have h1 : (should_be_installed exec c).1 = true := by
    simp [should_be_installed, run_command]
    exact hprobe
  simp only [install, h1, hrepo, Bool.false_eq_true, if_false, if_true]
  simp only [installFromRemoteFile, hrem, Option.getD_some, run_command]
  generalize (exec (List.map List.asString (pySplitSpace
    ("sudo dnf install -y "
      ++ ("/tmp/" ++ ((pySplit '/' url.toList).getLastD []).asString)).toList))) = q
  cases hq : q.returncode == 0 <;> simp [hq, bne]

/-- Remote-file install directive used by the C6 witness. -/
def remoteCfg : InstallConfig :=
  ⟨"probe", none, none, some "http://h/a/p.rpm"⟩

/-- HTTP oracle answering 200 with body `BYTES`. -/
def remoteHttp : String → HttpResponse :=
  fun _ => ⟨200, "", "BYTES"⟩

/-- Subprocess oracle: the probe `probe` fails (exit 1), everything else
succeeds. -/
def remoteExec : List String → CmdResult :=
  fun args => if args = ["probe"] then ⟨1, "", ""⟩ else ⟨0, "", ""⟩

/-- C6 witness: the remote path downloads, persists to `/tmp/p.rpm` and
installs from there. -/
theorem install_remote_path_witness :
    install remoteExec remoteHttp remoteCfg =
      Except.ok [Effect.wrote "/tmp/p.rpm" "BYTES",
        Effect.ran "sudo dnf install -y /tmp/p.rpm"] := by
  have h := install_remote_path remoteExec remoteHttp remoteCfg "http://h/a/p.rpm"
    rfl rfl (by decide)
  rw [h]
  decide

lemma except_map_ok {ε α β : Type} (a : α) (f : α → β) :
    (Except.ok (ε := ε) a).map f = Except.ok (f a) := rfl

/-- C5 counterexample: with `A` bound to the text `${B}` and `B` bound to
`v`, the code expands `${A}x${B}` to `vxv` — the value substituted for `A`
IS re-expanded (because `${B}` is also a later match of the original string)
— while the claimed non-recursive single pass yields `${B}xv`. -/
theorem substEnv_nonrecursive_counterexample :
    substEnv envC ['$', '{', 'A', '}', 'x', '$', '{', 'B', '}']
      = Except.ok ['v', 'x', 'v']
    ∧ specExpandNonRecursive envC ['$', '{', 'A', '}', 'x', '$', '{', 'B', '}']
      = Except.ok ['$', '{', 'B', '}', 'x', 'v']
    ∧ (['v', 'x', 'v'] : List Char) ≠ ['$', '{', 'B', '}', 'x', 'v'] :=
  ⟨by decide, by decide, by decide⟩

/-- C5 (amended): expansion iterates left-to-right over the placeholder
matches of the ORIGINAL string, replacing every occurrence of each matched
text in the current string; it is not non-recursive — whenever `A` expands to
the text of a `B` placeholder that is also matched later in the original
string, the inserted value is expanded again (result `v ++ x ++ v`), whereas
the non-recursive single pass of the spec leaves it (result `${B} ++ x ++
v`). -/
theorem substEnv_reexpands_later_match
    (env : List Char → Option (List Char)) (v : List Char)
    (hA : env ['A'] = some ['$', '{', 'B', '}'])
    (hB : env ['B'] = some v) :
    substEnv env ['$', '{', 'A', '}', 'x', '$', '{', 'B', '}'] =
      Except.ok (v ++ 'x' :: v)
    ∧ specExpandNonRecursive env ['$', '{', 'A', '}', 'x', '$', '{', 'B', '}'] =
      Except.ok ('$' :: '{' :: 'B' :: '}' :: 'x' :: v) := by
  constructor
  · have hm : findMatches ['$', '{', 'A', '}', 'x', '$', '{', 'B', '}'] =
        [(['$', '{', 'A', '}'], ['A']), (['$', '{', 'B', '}'], ['B'])] := rfl
    have r1 : replaceAll ['$', '{', 'A', '}', 'x', '$', '{', 'B', '}']
        ['$', '{', 'A', '}'] ['$', '{', 'B', '}']
        = ['$', '{', 'B', '}', 'x', '$', '{', 'B', '}'] := rfl
    have r2 : replaceAll ['$', '{', 'B', '}', 'x', '$', '{', 'B', '}']
        ['$', '{', 'B', '}'] v = v ++ 'x' :: (v ++ []) := rfl
    unfold substEnv
    rw [hm]
    simp only [List.foldlM_cons, List.foldlM_nil, hA, hB, except_bind_ok, r1, r2]
    simp only [List.append_nil]
    rfl
  · have e1 : specExpandNonRecursive env
        ['$', '{', 'A', '}', 'x', '$', '{', 'B', '}'] =
        (match env ['A'] with
          | none => Except.error (PyErr.keyError (List.asString ['A']))
          | some v1 =>
            (specExpandGo env 8 ['x', '$', '{', 'B', '}']).map
              (fun t => v1 ++ t)) := rfl
    have e2 : specExpandGo env 8 ['x', '$', '{', 'B', '}'] =
        ((match env ['B'] with
          | none => Except.error (PyErr.keyError (List.asString ['B']))
          | some v2 =>
            (specExpandGo env 6 ([] : List Char)).map (fun t => v2 ++ t))).map
          (fun t => 'x' :: t) := rfl
    rw [e1, hA]
    simp only []
    rw [e2, hB]
    simp only [except_map_ok]
    have e3 : specExpandGo env 6 ([] : List Char) = Except.ok [] := rfl
    rw [e3]
    simp [except_map_ok]

/-- C5 witness: instantiating the amended claim at the concrete environment
of the counterexample. -/
theorem substEnv_reexpands_later_match_witness :
    substEnv envC ['$', '{', 'A', '}', 'x', '$', '{', 'B', '}'] =
      Except.ok (['v'] ++ 'x' :: ['v'])
    ∧ specExpandNonRecursive envC ['$', '{', 'A', '}', 'x', '$', '{', 'B', '}'] =
      Except.ok ('$' :: '{' :: 'B' :: '}' :: 'x' :: ['v']) :=
  substEnv_reexpands_later_match envC ['v'] (by decide) (by decide)

end InitMachine
